import Mathlib

/-!
Shallow embedding of the interactive-timeline and task-protocol core of the
drum-transcription UI (`src/ui`): the waveform widget's mouse handlers and
audio loading, the audio-controls trim spin boxes, the main window's
load / transcription / playback-position handlers, and the background
transcription worker.  Time values (seconds) are modelled as exact rationals.
-/

/-- The literal `0.1` second minimum trim margin appearing in
`WaveformWidget.on_mouse_move` (lines 224, 231) and
`AudioControlsWidget.on_trim_changed` (lines 132, 134). -/
def minTrimGap : ℚ := 1/10

/-- `WaveformWidget.drag_threshold` (line 29): the 0.5 s hit radius for
grabbing a trim line. -/
def drag_threshold : ℚ := 1/2

/-- The non-`None` values of `WaveformWidget.dragging_element`
(`'trim_start'`, `'trim_end'`, `'playback'`). -/
inductive DragElement
  | trim_start
  | trim_end
  | playback
deriving DecidableEq, Repr

/-- The timeline-relevant mutable state of `WaveformWidget`.
`audioLoaded` models `self.audio_data is not None`. -/
structure WState where
  audioLoaded : Bool
  duration : ℚ
  trim_start : ℚ
  trim_end : ℚ
  playback_position : ℚ
  dragging_element : Option DragElement
deriving DecidableEq, Repr

/-- The Qt signals `WaveformWidget` can emit from its mouse handlers. -/
inductive WSignal
  | seek_requested (t : ℚ)
  | trim_start_changed (t : ℚ)
  | trim_end_changed (t : ℚ)
deriving DecidableEq, Repr

/-- Field initialisation in `WaveformWidget.__init__` (lines 20-28). -/
def initWState : WState :=
  { audioLoaded := false, duration := 0, trim_start := 0, trim_end := 0,
    playback_position := 0, dragging_element := none }

namespace WaveformWidget

/-- The success path of `WaveformWidget.load_audio` (lines 78-95), with the
decoded duration `d = len(audio_data) / sample_rate` as input: the audio data
is installed and the trim region is reset to the full duration.  On a decode
failure none of these assignments happen (`sf.read` raises on line 78) and the
method re-raises; that case is modelled in `DrumTranscriptionUI.load_audio_file`. -/
def load_audio (w : WState) (d : ℚ) : WState :=
  { w with audioLoaded := true, duration := d, trim_start := 0, trim_end := d }

/-- `WaveformWidget.update_trim_region` (lines 164-167). -/
def update_trim_region (w : WState) (start_time end_time : ℚ) : WState :=
  { w with trim_start := start_time, trim_end := end_time }

/-- `WaveformWidget.update_playback_position` (lines 169-174). -/
def update_playback_position (w : WState) (position : ℚ) : WState :=
  { w with playback_position := position }

/-- `WaveformWidget.on_mouse_press` (lines 176-199).  The event is modelled by
whether it falls in the plot axes (`event.inaxes == self.ax`) and its optional
time coordinate `event.xdata`.  Cursor-shape changes are not state.
Returns the new widget state and the emitted signals. -/
def on_mouse_press (w : WState) (inaxes : Bool) (xdata : Option ℚ) :
    WState × List WSignal :=
  if !inaxes || !w.audioLoaded then (w, [])
  else
    match xdata with
    | none => (w, [])
    | some x =>
      let click_time := max 0 (min w.duration x)
      if |click_time - w.trim_start| < drag_threshold then
        ({ w with dragging_element := some DragElement.trim_start }, [])
      else if |click_time - w.trim_end| < drag_threshold then
        ({ w with dragging_element := some DragElement.trim_end }, [])
      else
        ({ w with dragging_element := some DragElement.playback },
         [WSignal.seek_requested click_time])

/-- `WaveformWidget.on_mouse_release` (lines 201-204). -/
def on_mouse_release (w : WState) : WState :=
  { w with dragging_element := none }

/-- `WaveformWidget.on_mouse_move` (lines 206-246).  Cursor-shape changes on
the early-return and hover paths are not state and are omitted. -/
def on_mouse_move (w : WState) (inaxes : Bool) (xdata : Option ℚ) :
    WState × List WSignal :=
  if !inaxes || !w.audioLoaded then (w, [])
  else
    match xdata with
    | none => (w, [])
    | some x =>
      let move_time := max 0 (min w.duration x)
      match w.dragging_element with
      | some DragElement.trim_start =>
          let new_start := min move_time (w.trim_end - minTrimGap)
          let ts := max 0 new_start
          ({ w with trim_start := ts }, [WSignal.trim_start_changed ts])
      | some DragElement.trim_end =>
          let new_end := max move_time (w.trim_start + minTrimGap)
          let te := min w.duration new_end
          ({ w with trim_end := te }, [WSignal.trim_end_changed te])
      | some DragElement.playback =>
          (w, [WSignal.seek_requested move_time])
      | none => (w, [])

end WaveformWidget

/-- The two trim spin boxes of `AudioControlsWidget`. -/
structure SpinState where
  start_val : ℚ
  end_val : ℚ
deriving DecidableEq, Repr

/-- The result of `self.sender()` inside `AudioControlsWidget.on_trim_changed`:
which spin box's `valueChanged` triggered the slot. -/
inductive SpinSender
  | startBox
  | endBox
deriving DecidableEq, Repr

namespace AudioControlsWidget

/-- One execution of `AudioControlsWidget.on_trim_changed` (lines 125-139):
reads both spin boxes; when `start >= end` it repairs the sender's box and
returns without emitting (the re-entrant execution that the repairing
`setValue` may trigger is a separate execution of this function); otherwise it
emits `trim_changed(start, end)`.  Returns the new spin state and the emitted
pair, if any. -/
def on_trim_changed (duration : ℚ) (s : SpinState) (sender : SpinSender) :
    SpinState × Option (ℚ × ℚ) :=
  if s.end_val ≤ s.start_val then
    match sender with
    | SpinSender.startBox =>
        ({ s with start_val := max 0 (s.end_val - minTrimGap) }, none)
    | SpinSender.endBox =>
        ({ s with end_val := min duration (s.start_val + minTrimGap) }, none)
  else
    (s, some (s.start_val, s.end_val))

end AudioControlsWidget

/-- The synchronous outcome of a `DrumTranscriptionUI.start_transcription`
call: either the "No File" warning (line 305), or the `TypeError` raised by
`TranscriptionWorker(self.audio_file, start_time, end_time)` on line 325,
since `TranscriptionWorker.__init__` accepts only `audio_file`. -/
inductive StartOutcome
  | noFileWarning
  | workerInitTypeError
deriving DecidableEq, Repr

/-- The timeline- and task-relevant mutable state of `DrumTranscriptionUI`:
the loaded file reference, media-player playing state, control enablement,
progress bar, result presence, media source, and the embedded waveform
widget. -/
structure AppState where
  audioFile : Option String
  playing : Bool
  transcribeEnabled : Bool
  controlsEnabled : Bool
  progressVisible : Bool
  progressValue : ℤ
  hasResult : Bool
  exportEnabled : Bool
  mediaSource : Option String
  waveform : WState
deriving DecidableEq, Repr

/-- The state established by `DrumTranscriptionUI.__init__` / `setup_ui`:
no file, nothing playing, transcribe and audio controls disabled, progress
bar hidden, no result, exports disabled. -/
def initAppState : AppState :=
  { audioFile := none, playing := false, transcribeEnabled := false,
    controlsEnabled := false, progressVisible := false, progressValue := 0,
    hasResult := false, exportEnabled := false, mediaSource := none,
    waveform := initWState }

namespace DrumTranscriptionUI

/-- `DrumTranscriptionUI.load_audio_file` (lines 189-224).  `decode` is the
outcome of `sf.read` inside `WaveformWidget.load_audio`: `Except.ok d` gives
the decoded duration, `Except.error e` the raised decode exception.  The
handler first stores the file path and enables the Transcribe button, then
attempts the waveform load; a raised exception is caught (message box and
status bar only), so on failure the assignments made before the load remain. -/
def load_audio_file (a : AppState) (path : String) (decode : Except String ℚ) :
    AppState :=
  let a1 := { a with audioFile := some path, transcribeEnabled := true }
  match decode with
  | Except.error _ => a1
  | Except.ok d =>
      { a1 with
        waveform := WaveformWidget.load_audio a1.waveform d,
        mediaSource := some path, controlsEnabled := true,
        hasResult := false, exportEnabled := false }

/-- `DrumTranscriptionUI.start_transcription` (lines 302-330).  The only guard
is `if not self.audio_file`.  Past it, the handler reads the trim snapshot,
stops playback, disables the Transcribe button and audio controls, shows and
resets the progress bar, and then calls the worker constructor with three
arguments, which raises `TypeError` (its `__init__` takes only `audio_file`). -/
def start_transcription (a : AppState) : AppState × StartOutcome :=
  match a.audioFile with
  | none => (a, StartOutcome.noFileWarning)
  | some _ =>
      let a1 := { a with
                  playing := false, transcribeEnabled := false,
                  controlsEnabled := false, progressVisible := true,
                  progressValue := 0 }
      (a1, StartOutcome.workerInitTypeError)

/-- `DrumTranscriptionUI.on_position_changed` (lines 237-246).  `positionMs`
is the media player's position in milliseconds; `trimEndVal` is what
`self.audio_controls.get_trim_end()` returns (the end spin box).  Returns the
new app state, the seconds value forwarded to the position display and the
waveform playback cursor, and whether a stop was issued. -/
def on_position_changed (a : AppState) (positionMs trimEndVal : ℚ) :
    AppState × ℚ × Bool :=
  let seconds := positionMs / 1000
  let a1 := { a with
    waveform := WaveformWidget.update_playback_position a.waveform seconds }
  if trimEndVal ≤ seconds ∧ a.playing = true then
    ({ a1 with playing := false }, seconds, true)
  else
    (a1, seconds, false)

/-- The UI-state effects of `DrumTranscriptionUI.display_results`
(lines 340-372); the formatted result text is not state modelled here. -/
def display_results (a : AppState) : AppState :=
  { a with
    hasResult := true, transcribeEnabled := true,
    controlsEnabled := true, exportEnabled := true, progressVisible := false }

/-- The UI-state effects of `DrumTranscriptionUI.show_error` (lines 374-384). -/
def show_error (a : AppState) : AppState :=
  { a with
    transcribeEnabled := true, controlsEnabled := true,
    progressVisible := false }

end DrumTranscriptionUI

/-- A transcription result dict as built in `TranscriptionWorker.run`
(lines 28-35): primary sticking, confidence, and alternatives. -/
structure TResult where
  primary_sticking : String
  confidence : ℚ
  alternatives : List (String × ℚ)
deriving DecidableEq, Repr

/-- The mock result emitted by `TranscriptionWorker.run`. -/
def mockResult : TResult :=
  { primary_sticking := "RlKRLKrlRL", confidence := 85/100,
    alternatives := [("RrKRLKrlRL", 72/100), ("RlKRRKllRL", 65/100)] }

/-- Events a `TranscriptionWorker` emits: the `progress`, `finished` and
`error` signals. -/
inductive WorkerEvent
  | progressEv (p : ℤ)
  | finishedEv (r : TResult)
  | errorEv (msg : String)
deriving DecidableEq, Repr

/-- Terminal events are `finished` (success) and `error` (failure). -/
def isTerminalEv : WorkerEvent → Bool
  | WorkerEvent.progressEv _ => false
  | WorkerEvent.finishedEv _ => true
  | WorkerEvent.errorEv _ => true

/-- The four progress values the worker body emits, in order. -/
def progressValues : List ℤ := [20, 50, 80, 100]

namespace TranscriptionWorker

/-- The signal trace of one `TranscriptionWorker.run` (lines 12-40).
`exc = none`: the `try` body completes, emitting the four progress values and
then `finished(result)`.  `exc = some (k, msg)`: an exception with message
`msg` is raised after the first `k` progress emissions (any statement of the
body may raise); the `except` clause emits `error(str(e))` and the method
returns, so the exception does not propagate out of `run`. -/
def run (exc : Option (Nat × String)) : List WorkerEvent :=
  match exc with
  | none =>
      progressValues.map WorkerEvent.progressEv
        ++ [WorkerEvent.finishedEv mockResult]
  | some (k, msg) =>
      (progressValues.take k).map WorkerEvent.progressEv
        ++ [WorkerEvent.errorEv msg]

end TranscriptionWorker

/-- The terminal event a run with exception behaviour `exc` ends with. -/
def expectedTerminal : Option (Nat × String) → WorkerEvent
  | none => WorkerEvent.finishedEv mockResult
  | some (_, msg) => WorkerEvent.errorEv msg

/-- Python positional-argument values relevant to the worker constructor
call: the audio file path and the two trim times. -/
inductive PyVal
  | str (s : String)
  | num (q : ℚ)
deriving DecidableEq, Repr

/-- The object state `TranscriptionWorker.__init__` (lines 8-10) constructs:
the only attribute it assigns is `self.audio_file`. -/
structure WorkerObj where
  audio_file : PyVal
deriving DecidableEq, Repr

/-- Calling `TranscriptionWorker(...)`: `__init__(self, audio_file)` declares
exactly one positional parameter besides `self`, so by Python call semantics
a call with any other number of positional arguments raises `TypeError`
before any attribute is assigned. -/
def workerNew (args : List PyVal) : Except String WorkerObj :=
  match args with
  | [f] => Except.ok { audio_file := f }
  | _ => Except.error "TypeError"

/-- The argument list built at `main_window.py` line 325:
`TranscriptionWorker(self.audio_file, start_time, end_time)`. -/
def startTranscriptionWorkerArgs (file : String) (start_time end_time : ℚ) :
    List PyVal :=
  [PyVal.str file, PyVal.num start_time, PyVal.num end_time]

/-- One trim-boundary update of the loaded timeline, as the spec's claim
ranges over them: a pointer-drag move while the corresponding boundary is
grabbed (`WaveformWidget.on_mouse_move` with `dragging_element` set and an
in-axes event), or an edit of one spin box to value `v`
(`QDoubleSpinBox` clamps the entered value to `[minimum, maximum]`, i.e.
`[0, duration]` after `set_duration`; its `valueChanged` then runs
`AudioControlsWidget.on_trim_changed`, whose emitted pair reaches
`WaveformWidget.update_trim_region` through
`DrumTranscriptionUI.on_trim_changed`).  The spin boxes are taken to hold the
current timeline values before the edit, which the drag handlers
(`on_waveform_trim_start_changed` / `..._end_changed`) and every emitting
edit maintain. -/
inductive TrimUpdate
  | dragStartMove (x : ℚ)
  | dragEndMove (x : ℚ)
  | spinEdit (sender : SpinSender) (v : ℚ)
deriving DecidableEq, Repr

/-- Apply one trim-boundary update to the waveform timeline state. -/
def applyTrimUpdate (w : WState) : TrimUpdate → WState
  | TrimUpdate.dragStartMove x =>
      (WaveformWidget.on_mouse_move
        { w with dragging_element := some DragElement.trim_start }
        true (some x)).1
  | TrimUpdate.dragEndMove x =>
      (WaveformWidget.on_mouse_move
        { w with dragging_element := some DragElement.trim_end }
        true (some x)).1
  | TrimUpdate.spinEdit sender v =>
      let v1 := max 0 (min w.duration v)
      let sp : SpinState :=
        match sender with
        | SpinSender.startBox => { start_val := v1, end_val := w.trim_end }
        | SpinSender.endBox => { start_val := w.trim_start, end_val := v1 }
      match (AudioControlsWidget.on_trim_changed w.duration sp sender).2 with
      | some (a, b) => WaveformWidget.update_trim_region w a b
      | none => w

/-- Apply a sequence of trim-boundary updates in order. -/
def applyTrimUpdates (w : WState) : List TrimUpdate → WState
  | [] => w
  | u :: us => applyTrimUpdates (applyTrimUpdate w u) us

/-- The ordering part of the timeline invariant:
`0 ≤ trimStart < trimEnd ≤ durationSeconds`. -/
def TrimOrdered (w : WState) : Prop :=
  0 ≤ w.trim_start ∧ w.trim_start < w.trim_end ∧ w.trim_end ≤ w.duration

instance (w : WState) : Decidable (TrimOrdered w) := by
  unfold TrimOrdered; infer_instance

/-- The full invariant the spec claims, minimum gap included. -/
def TrimInvariant (w : WState) : Prop :=
  TrimOrdered w ∧ minTrimGap ≤ w.trim_end - w.trim_start

instance (w : WState) : Decidable (TrimInvariant w) := by
  unfold TrimInvariant; infer_instance

/-- An app state with nothing loaded, as after construction. -/
def AppUnloaded (a : AppState) : Prop :=
  a.audioFile = none ∧ a.transcribeEnabled = false ∧
  a.controlsEnabled = false ∧ a.waveform.audioLoaded = false

instance (a : AppState) : Decidable (AppUnloaded a) := by
  unfold AppUnloaded; infer_instance

/-! ### Helper lemmas -/

lemma getLast?_append_singleton {α : Type} (l : List α) (a : α) :
    (l ++ [a]).getLast? = some a := by
  rw [List.getLast?_concat]

lemma countP_progress_map (l : List ℤ) :
    (l.map WorkerEvent.progressEv).countP isTerminalEv = 0 := by
  induction l with
  | nil => rfl
  | cons a l ih => simp [List.countP_cons, isTerminalEv, ih]

lemma clamp_min_max (d a x : ℚ) (h0 : 0 < a) (had : a ≤ d) :
    min d (max (max 0 (min d x)) a) = min d (max x a) := by
  rcases le_total x 0 with hx | hx
  · have h1 : max 0 (min d x) = 0 :=
      max_eq_left (le_trans (min_le_right d x) hx)
    rw [h1, max_eq_right h0.le, max_eq_right (le_trans hx h0.le)]
  · rcases le_total x d with hxd | hxd
    · rw [min_eq_right hxd, max_eq_right hx]
    · rw [min_eq_left hxd, max_eq_right (le_trans h0.le had),
        max_eq_left had, max_eq_left (le_trans had hxd), min_self,
        min_eq_left hxd]

/-! ### Claim theorems -/

/-- C2: `start_transcription` builds the snapshot `(audio_file, start_time,
end_time)` at invocation time and passes it to the worker constructor, but
`TranscriptionWorker.__init__` accepts only `audio_file`: the three-argument
call at `main_window.py:325` raises `TypeError`, so the worker never receives
the `rangeStart`/`rangeEnd` snapshot the claim describes. -/
theorem worker_constructor_arity_mismatch (file : String)
    (start_time end_time : ℚ) :
    workerNew (startTranscriptionWorkerArgs file start_time end_time) =
      Except.error "TypeError" := rfl

/-- C7 counterexample: after loading a first file of duration 5, scrubbing the
playback position to 7, and then successfully loading a second file of
duration 12, the trim region is reset to `[0, 12]` but the playback position
is still 7, not 0 — `load_audio` never resets `playback_position`. -/
theorem load_audio_playback_cex :
    (WaveformWidget.load_audio
      (WaveformWidget.update_playback_position
        (WaveformWidget.load_audio initWState 5) 7) 12).trim_start = 0 ∧
    (WaveformWidget.load_audio
      (WaveformWidget.update_playback_position
        (WaveformWidget.load_audio initWState 5) 7) 12).trim_end = 12 ∧
    (WaveformWidget.load_audio
      (WaveformWidget.update_playback_position
        (WaveformWidget.load_audio initWState 5) 7) 12).playback_position = 7 ∧
    ¬ (WaveformWidget.load_audio
      (WaveformWidget.update_playback_position
        (WaveformWidget.load_audio initWState 5) 7) 12).playback_position = 0 := by
  refine ⟨rfl, rfl, rfl, ?_⟩
  show ¬ (7:ℚ) = 0
  norm_num

/-- C7 (amended): every successful load of an audio source of duration `d`
sets `trimStart = 0` and `trimEnd = d` (and installs the audio and duration),
but leaves `playbackPosition` at its prior value — it is initialised to 0 only
at widget construction, not reset on load. -/
theorem load_audio_resets_trim_not_playback (w : WState) (d : ℚ) :
    (WaveformWidget.load_audio w d).trim_start = 0 ∧
    (WaveformWidget.load_audio w d).trim_end = d ∧
    (WaveformWidget.load_audio w d).duration = d ∧
    (WaveformWidget.load_audio w d).audioLoaded = true ∧
    (WaveformWidget.load_audio w d).playback_position = w.playback_position :=
  ⟨rfl, rfl, rfl, rfl, rfl⟩

/-- C8: `on_position_changed` forwards the position (converted to seconds) to
the position display and to the waveform playback cursor, and issues a stop
exactly when the position has reached the trim end while the transport is
playing. -/
theorem position_changed_forwards_and_stops (a : AppState)
    (positionMs trimEndVal : ℚ) :
    (DrumTranscriptionUI.on_position_changed a positionMs trimEndVal).2.1 =
      positionMs / 1000 ∧
    (DrumTranscriptionUI.on_position_changed a positionMs
      trimEndVal).1.waveform.playback_position = positionMs / 1000 ∧
    ((DrumTranscriptionUI.on_position_changed a positionMs trimEndVal).2.2 =
        true ↔
      (trimEndVal ≤ positionMs / 1000 ∧ a.playing = true)) := by
  by_cases hc : trimEndVal ≤ positionMs / 1000 ∧ a.playing = true <;>
    simp [DrumTranscriptionUI.on_position_changed,
      WaveformWidget.update_playback_position, hc]

/-- C10: when no audio is loaded, or the pointer event is outside the plot
axes, or it carries no time coordinate, `on_mouse_press` and `on_mouse_move`
leave the widget state unchanged and emit no signal. -/
theorem mouse_noop_when_unloaded_or_outside (w : WState) (inaxes : Bool)
    (xdata : Option ℚ)
    (h : w.audioLoaded = false ∨ inaxes = false ∨ xdata = none) :
    WaveformWidget.on_mouse_press w inaxes xdata = (w, []) ∧
    WaveformWidget.on_mouse_move w inaxes xdata = (w, []) := by
  rcases h with h | h | h
  · simp [WaveformWidget.on_mouse_press, WaveformWidget.on_mouse_move, h]
  · subst h
    simp [WaveformWidget.on_mouse_press, WaveformWidget.on_mouse_move]
  · subst h
    by_cases hb : (!inaxes || !w.audioLoaded) = true <;>
      simp [WaveformWidget.on_mouse_press, WaveformWidget.on_mouse_move, hb]

/-- C10 witness: with no audio loaded, an in-axes press and move at time 1 do
nothing. -/
theorem mouse_noop_witness :
    (initWState.audioLoaded = false ∨ true = false ∨ some (1:ℚ) = none) ∧
    WaveformWidget.on_mouse_press initWState true (some 1) = (initWState, []) ∧
    WaveformWidget.on_mouse_move initWState true (some 1) = (initWState, []) :=
  ⟨Or.inl rfl,
   mouse_noop_when_unloaded_or_outside initWState true (some 1) (Or.inl rfl)⟩

/-- C5: every run of the worker emits exactly one terminal event, and it is
the last event of the trace: `finished(result)` when the body completes, and
`error(msg)` when an exception with message `msg` is raised at any point —
the `except` clause converts it instead of letting it propagate.  After either
terminal event the corresponding handler re-enables the Transcribe trigger,
so a new invocation is legal. -/
theorem worker_run_single_terminal (exc : Option (Nat × String))
    (a : AppState) :
    (TranscriptionWorker.run exc).countP isTerminalEv = 1 ∧
    (TranscriptionWorker.run exc).getLast? = some (expectedTerminal exc) ∧
    (DrumTranscriptionUI.display_results a).transcribeEnabled = true ∧
    (DrumTranscriptionUI.show_error a).transcribeEnabled = true := by
  refine ⟨?_, ?_, rfl, rfl⟩
  · cases exc with
    | none =>
        rw [TranscriptionWorker.run, List.countP_append,
          countP_progress_map]
        rfl
    | some km =>
        obtain ⟨k, msg⟩ := km
        rw [TranscriptionWorker.run, List.countP_append,
          countP_progress_map]
        rfl
  · cases exc with
    | none => rw [TranscriptionWorker.run, getLast?_append_singleton]; rfl
    | some km =>
        obtain ⟨k, msg⟩ := km
        rw [TranscriptionWorker.run, getLast?_append_singleton]
        rfl

/-- A press state with a short trim region `[2, 2.3]` on a 10 s timeline:
both boundaries are within the 0.5 s hit radius of a press at 2.25 s. -/
def pressCexState : WState :=
  { audioLoaded := true, duration := 10, trim_start := 2, trim_end := 23/10,
    playback_position := 0, dragging_element := none }

/-- C4 counterexample: a press at `t = 2.25` is within the hit radius of both
boundaries and strictly nearer to `trim_end` (distance 0.05 versus 0.25), yet
`on_mouse_press` enters `DraggingStart`, because the code tests `trim_start`
first and never compares the two distances — the nearer boundary does not win. -/
theorem press_nearest_boundary_cex :
    |(9:ℚ)/4 - pressCexState.trim_end| < |(9:ℚ)/4 - pressCexState.trim_start| ∧
    |(9:ℚ)/4 - pressCexState.trim_start| < drag_threshold ∧
    |(9:ℚ)/4 - pressCexState.trim_end| < drag_threshold ∧
    (WaveformWidget.on_mouse_press pressCexState true
        (some (9/4))).1.dragging_element = some DragElement.trim_start := by
  refine ⟨?_, ?_, ?_, ?_⟩
  · show |(9:ℚ)/4 - 23/10| < |(9:ℚ)/4 - 2|
    rw [show (9:ℚ)/4 - 23/10 = -(1/20) by norm_num,
      show (9:ℚ)/4 - 2 = 1/4 by norm_num, abs_neg]
    rw [abs_of_pos (by norm_num), abs_of_pos (by norm_num)]
    norm_num
  · show |(9:ℚ)/4 - 2| < drag_threshold
    rw [show (9:ℚ)/4 - 2 = 1/4 by norm_num, abs_of_pos (by norm_num)]
    norm_num [drag_threshold]
  · show |(9:ℚ)/4 - 23/10| < drag_threshold
    rw [show (9:ℚ)/4 - 23/10 = -(1/20) by norm_num, abs_neg,
      abs_of_pos (by norm_num)]
    norm_num [drag_threshold]
  · simp only [WaveformWidget.on_mouse_press, pressCexState]
    norm_num [drag_threshold, abs_of_pos, abs_of_nonneg]

/-- C4 (amended): on an in-axes press with audio loaded, the handler checks
`trim_start` first: if the (clamped) press time is within the hit radius of
`trim_start` it enters `DraggingStart` — regardless of which boundary is
nearer; otherwise if within the radius of `trim_end` it enters `DraggingEnd`;
otherwise it enters scrubbing mode and requests a seek to the press time. -/
theorem press_checks_start_first (w : WState) (x : ℚ)
    (hl : w.audioLoaded = true) :
    (|max 0 (min w.duration x) - w.trim_start| < drag_threshold →
      WaveformWidget.on_mouse_press w true (some x) =
        ({ w with dragging_element := some DragElement.trim_start }, [])) ∧
    (drag_threshold ≤ |max 0 (min w.duration x) - w.trim_start| →
      |max 0 (min w.duration x) - w.trim_end| < drag_threshold →
      WaveformWidget.on_mouse_press w true (some x) =
        ({ w with dragging_element := some DragElement.trim_end }, [])) ∧
    (drag_threshold ≤ |max 0 (min w.duration x) - w.trim_start| →
      drag_threshold ≤ |max 0 (min w.duration x) - w.trim_end| →
      WaveformWidget.on_mouse_press w true (some x) =
        ({ w with dragging_element := some DragElement.playback },
         [WSignal.seek_requested (max 0 (min w.duration x))])) := by
  refine ⟨fun h1 => ?_, fun h1 h2 => ?_, fun h1 h2 => ?_⟩
  · simp [WaveformWidget.on_mouse_press, hl, h1]
  · simp [WaveformWidget.on_mouse_press, hl, not_lt.mpr h1, h2]
  · simp [WaveformWidget.on_mouse_press, hl, not_lt.mpr h1, not_lt.mpr h2]

/-- C4 witness: at the short-region state, the press at 2.25 s is within the
hit radius of `trim_start`, so the first branch applies and the handler
enters `DraggingStart`. -/
theorem press_checks_start_first_witness :
    pressCexState.audioLoaded = true ∧
    WaveformWidget.on_mouse_press pressCexState true (some (9/4)) =
      ({ pressCexState with
         dragging_element := some DragElement.trim_start }, []) :=
  ⟨rfl, (press_checks_start_first pressCexState (9/4) rfl).1 (by
    show |max 0 (min pressCexState.duration (9/4)) -
      pressCexState.trim_start| < drag_threshold
    rw [show max 0 (min pressCexState.duration ((9:ℚ)/4)) -
        pressCexState.trim_start = 1/4 by
      simp only [pressCexState]
      rw [min_eq_right (by norm_num), max_eq_right (by norm_num)]
      norm_num]
    rw [abs_of_pos (by norm_num)]
    norm_num [drag_threshold])⟩

/-- The state of the C9 scenario: duration 10, trim region `[2, 3]`, the end
boundary grabbed. -/
def dragEndExampleState : WState :=
  { audioLoaded := true, duration := 10, trim_start := 2, trim_end := 3,
    playback_position := 0, dragging_element := some DragElement.trim_end }

/-- C9: while dragging the end boundary, a move requesting time `x` sets
`trim_end` to `x` clamped to `[trim_start + minTrimGap, duration]` (for any
state with `0 ≤ trim_start` and `trim_start + minTrimGap ≤ duration`); in
particular, in the scenario `duration = 10, trim_start = 2, trim_end = 3`, a
move requesting `2.0` yields `trim_end = 2.1`, not `2.0`. -/
theorem drag_end_clamps (w : WState) (x : ℚ) (hl : w.audioLoaded = true)
    (hdrag : w.dragging_element = some DragElement.trim_end)
    (h0 : 0 ≤ w.trim_start)
    (hgap : w.trim_start + minTrimGap ≤ w.duration) :
    (WaveformWidget.on_mouse_move w true (some x)).1.trim_end =
      min w.duration (max x (w.trim_start + minTrimGap)) ∧
    (WaveformWidget.on_mouse_move dragEndExampleState true
      (some 2)).1.trim_end = 21/10 := by
  constructor
  · simp only [WaveformWidget.on_mouse_move, hl, hdrag, Bool.not_true,
      Bool.or_self, Bool.false_or, if_false]
    exact clamp_min_max w.duration (w.trim_start + minTrimGap) x
      (by have hg : (0:ℚ) < minTrimGap := by norm_num [minTrimGap]
          linarith) hgap
  · norm_num [WaveformWidget.on_mouse_move, dragEndExampleState, minTrimGap]

/-- C9 witness: at the scenario state, the drag move requesting 2.0 clamps to
`trim_start + minTrimGap = 2.1`. -/
theorem drag_end_clamps_witness :
    (WaveformWidget.on_mouse_move dragEndExampleState true
        (some 2)).1.trim_end =
      min dragEndExampleState.duration
        (max 2 (dragEndExampleState.trim_start + minTrimGap)) ∧
    (WaveformWidget.on_mouse_move dragEndExampleState true
        (some 2)).1.trim_end = 21/10 :=
  drag_end_clamps dragEndExampleState 2 rfl rfl
    (by norm_num [dragEndExampleState])
    (by norm_num [dragEndExampleState, minTrimGap])

lemma trimOrdered_applyTrimUpdate (w : WState) (u : TrimUpdate)
    (h : TrimOrdered w) : TrimOrdered (applyTrimUpdate w u) := by
  obtain ⟨h0, hlt, hle⟩ := h
  have hg : (0:ℚ) < minTrimGap := by norm_num [minTrimGap]
  cases u with
  | dragStartMove x =>
      show TrimOrdered (WaveformWidget.on_mouse_move
        { w with dragging_element := some DragElement.trim_start }
        true (some x)).1
      cases hA : w.audioLoaded with
      | false =>
          simp only [WaveformWidget.on_mouse_move, hA, Bool.not_true,
            Bool.not_false, Bool.false_or, Bool.or_true, if_true]
          exact ⟨h0, hlt, hle⟩
      | true =>
          simp only [WaveformWidget.on_mouse_move, hA, Bool.not_true,
            Bool.not_false, Bool.false_or, Bool.or_false,
            Bool.false_eq_true, if_false]
          refine ⟨le_max_left 0 _, ?_, hle⟩
          refine max_lt (lt_of_le_of_lt h0 hlt) ?_
          exact lt_of_le_of_lt (min_le_right _ _) (by linarith)
  | dragEndMove x =>
      show TrimOrdered (WaveformWidget.on_mouse_move
        { w with dragging_element := some DragElement.trim_end }
        true (some x)).1
      cases hA : w.audioLoaded with
      | false =>
          simp only [WaveformWidget.on_mouse_move, hA, Bool.not_true,
            Bool.not_false, Bool.false_or, Bool.or_true, if_true]
          exact ⟨h0, hlt, hle⟩
      | true =>
          simp only [WaveformWidget.on_mouse_move, hA, Bool.not_true,
            Bool.not_false, Bool.false_or, Bool.or_false,
            Bool.false_eq_true, if_false]
          refine ⟨h0, ?_, min_le_left _ _⟩
          refine lt_min (lt_of_lt_of_le hlt hle) ?_
          exact lt_of_lt_of_le (by linarith) (le_max_right _ _)
  | spinEdit sender v =>
      cases sender with
      | startBox =>
          show TrimOrdered
            (match (AudioControlsWidget.on_trim_changed w.duration
                { start_val := max 0 (min w.duration v),
                  end_val := w.trim_end } SpinSender.startBox).2 with
             | some (a, b) => WaveformWidget.update_trim_region w a b
             | none => w)
          by_cases hc : w.trim_end ≤ max 0 (min w.duration v)
          · simp only [AudioControlsWidget.on_trim_changed, if_pos hc]
            exact ⟨h0, hlt, hle⟩
          · simp only [AudioControlsWidget.on_trim_changed, if_neg hc,
              WaveformWidget.update_trim_region]
            exact ⟨le_max_left 0 _, not_le.mp hc, hle⟩
      | endBox =>
          show TrimOrdered
            (match (AudioControlsWidget.on_trim_changed w.duration
                { start_val := w.trim_start,
                  end_val := max 0 (min w.duration v) }
                SpinSender.endBox).2 with
             | some (a, b) => WaveformWidget.update_trim_region w a b
             | none => w)
          by_cases hc : max 0 (min w.duration v) ≤ w.trim_start
          · simp only [AudioControlsWidget.on_trim_changed, if_pos hc]
            exact ⟨h0, hlt, hle⟩
          · simp only [AudioControlsWidget.on_trim_changed, if_neg hc,
              WaveformWidget.update_trim_region]
            refine ⟨h0, not_le.mp hc, ?_⟩
            exact max_le (le_trans h0 (le_trans hlt.le hle))
              (min_le_left _ _)

lemma trimOrdered_applyTrimUpdates (us : List TrimUpdate) (w : WState)
    (h : TrimOrdered w) : TrimOrdered (applyTrimUpdates w us) := by
  induction us generalizing w with
  | nil => exact h
  | cons u us ih => exact ih _ (trimOrdered_applyTrimUpdate w u h)

/-- C1 counterexample: on a freshly loaded 10 s timeline (so
`durationSeconds > minTrimGap`), one spin-box edit — setting the start box to
9.95 while the end box holds 10 — passes `on_trim_changed`'s only guard
(`start >= end`) and is emitted to the timeline, leaving
`trimEnd - trimStart = 0.05 < minTrimGap`: the claimed minimum-gap invariant
is violated after this update. -/
theorem trim_gap_invariant_cex :
    minTrimGap < (10:ℚ) ∧
    (applyTrimUpdates (WaveformWidget.load_audio initWState 10)
        [TrimUpdate.spinEdit SpinSender.startBox (199/20)]).trim_end -
      (applyTrimUpdates (WaveformWidget.load_audio initWState 10)
        [TrimUpdate.spinEdit SpinSender.startBox (199/20)]).trim_start <
      minTrimGap ∧
    ¬ TrimInvariant (applyTrimUpdates (WaveformWidget.load_audio initWState 10)
        [TrimUpdate.spinEdit SpinSender.startBox (199/20)]) := by
  have happ : applyTrimUpdates (WaveformWidget.load_audio initWState 10)
      [TrimUpdate.spinEdit SpinSender.startBox (199/20)] =
      { audioLoaded := true, duration := 10, trim_start := 199/20,
        trim_end := 10, playback_position := 0, dragging_element := none } := by
    show (match (AudioControlsWidget.on_trim_changed 10
        { start_val := max 0 (min (10:ℚ) (199/20)), end_val := 10 }
        SpinSender.startBox).2 with
      | some (a, b) => WaveformWidget.update_trim_region
          (WaveformWidget.load_audio initWState 10) a b
      | none => WaveformWidget.load_audio initWState 10) = _
    rw [min_eq_right (by norm_num : (199:ℚ)/20 ≤ 10),
      max_eq_right (by norm_num : (0:ℚ) ≤ 199/20)]
    simp only [AudioControlsWidget.on_trim_changed,
      if_neg (by norm_num : ¬((10:ℚ) ≤ 199/20))]
    rfl
  have hval : (applyTrimUpdates (WaveformWidget.load_audio initWState 10)
        [TrimUpdate.spinEdit SpinSender.startBox (199/20)]).trim_end -
      (applyTrimUpdates (WaveformWidget.load_audio initWState 10)
        [TrimUpdate.spinEdit SpinSender.startBox (199/20)]).trim_start <
      minTrimGap := by
    rw [happ]
    norm_num [minTrimGap]
  refine ⟨by norm_num [minTrimGap], hval, fun hTI => ?_⟩
  exact absurd hTI.2 (not_le.mpr hval)

/-- C1 (amended): for every sequence of trim-boundary updates (pointer drags
handled by `on_mouse_move` and spin-box edits handled by `on_trim_changed`)
on a timeline with `durationSeconds > minTrimGap`, after every update the
state satisfies `0 ≤ trimStart < trimEnd ≤ durationSeconds`.  The further
condition `trimEnd - trimStart ≥ minTrimGap` is not maintained: a spin-box
edit can leave a gap below 0.1 s, since `on_trim_changed` only rejects
`start >= end`. -/
theorem trim_updates_preserve_ordering (d : ℚ) (hd : minTrimGap < d)
    (us : List TrimUpdate) :
    TrimOrdered
      (applyTrimUpdates (WaveformWidget.load_audio initWState d) us) := by
  refine trimOrdered_applyTrimUpdates us _ ⟨le_refl 0, ?_, le_refl d⟩
  show (0:ℚ) < d
  have hg : (0:ℚ) < minTrimGap := by norm_num [minTrimGap]
  linarith

/-- C1 witness: on a 10 s timeline, after a drag of the start boundary to 5 s
the ordering invariant holds. -/
theorem trim_updates_preserve_ordering_witness :
    minTrimGap < (10:ℚ) ∧
    TrimOrdered (applyTrimUpdates (WaveformWidget.load_audio initWState 10)
      [TrimUpdate.dragStartMove 5]) :=
  ⟨by norm_num [minTrimGap],
   trim_updates_preserve_ordering 10 (by norm_num [minTrimGap])
     [TrimUpdate.dragStartMove 5]⟩

/-- An app state in the middle of a transcription run: a file is loaded, the
worker is processing (progress bar visible at 50), controls disabled. -/
def runningApp : AppState :=
  { audioFile := some "drums.wav", playing := false,
    transcribeEnabled := false, controlsEnabled := false,
    progressVisible := true, progressValue := 50, hasResult := false,
    exportEnabled := false, mediaSource := some "drums.wav",
    waveform := WaveformWidget.load_audio initWState 12 }

/-- C3 counterexample: a `start_transcription` call while a run is in flight
is not rejected: there is no `AlreadyRunning` outcome in the code at all, the
call proceeds past its only guard (`if not self.audio_file`), and it mutates
the state — here the progress bar value is reset from 50 to 0 — before the
worker constructor raises `TypeError`.  So the rejected-call-leaves-state-
unchanged property of the claim is false. -/
theorem already_running_not_rejected_cex :
    (DrumTranscriptionUI.start_transcription runningApp).1.progressValue = 0 ∧
    runningApp.progressValue = 50 ∧
    (DrumTranscriptionUI.start_transcription runningApp).1 ≠ runningApp ∧
    (DrumTranscriptionUI.start_transcription runningApp).2 =
      StartOutcome.workerInitTypeError := by
  refine ⟨rfl, rfl, ?_, rfl⟩
  intro hEq
  have hpv : (0:ℤ) = 50 := congrArg AppState.progressValue hEq
  norm_num at hpv

/-- C3 (amended): `start_transcription` checks only that an audio file is
set; it performs no running-status check, so a second trigger while a task is
in flight is not rejected with `AlreadyRunning` — it stops playback, disables
the Transcribe button and audio controls, shows and resets the progress bar,
and then fails with the worker-constructor `TypeError`.  Only the disabled
Transcribe button prevents double invocation in normal operation. -/
theorem start_transcription_no_running_guard (a : AppState) (f : String)
    (h : a.audioFile = some f) :
    DrumTranscriptionUI.start_transcription a =
      ({ a with
         playing := false, transcribeEnabled := false,
         controlsEnabled := false, progressVisible := true,
         progressValue := 0 }, StartOutcome.workerInitTypeError) := by
  simp [DrumTranscriptionUI.start_transcription, h]

/-- C3 witness: the mid-run state has a file set, so the second call mutates
the state and ends in the constructor `TypeError`. -/
theorem start_transcription_no_running_guard_witness :
    runningApp.audioFile = some "drums.wav" ∧
    DrumTranscriptionUI.start_transcription runningApp =
      ({ runningApp with
         playing := false, transcribeEnabled := false,
         controlsEnabled := false, progressVisible := true,
         progressValue := 0 }, StartOutcome.workerInitTypeError) :=
  ⟨rfl, start_transcription_no_running_guard runningApp "drums.wav" rfl⟩

/-- The app state after successfully loading a 12 s file "old.wav" from the
initial state. -/
def priorLoadedApp : AppState :=
  DrumTranscriptionUI.load_audio_file initAppState "old.wav" (Except.ok 12)

/-- The app state after then attempting to load "bad.wav", whose decode
fails. -/
def failedLoadApp : AppState :=
  DrumTranscriptionUI.load_audio_file priorLoadedApp "bad.wav"
    (Except.error "decode failure")

/-- C6 counterexample: after a failed load of "bad.wav" over a previously
loaded "old.wav", the state is neither left entirely unchanged nor cleared to
an unloaded state: `audio_file` already points to the failed file and the
Transcribe button is enabled, while the waveform timeline still holds the
prior file's 12 s audio. -/
theorem load_failure_partial_state_cex :
    failedLoadApp.audioFile = some "bad.wav" ∧
    failedLoadApp.transcribeEnabled = true ∧
    failedLoadApp.waveform.audioLoaded = true ∧
    failedLoadApp.waveform.duration = 12 ∧
    failedLoadApp ≠ priorLoadedApp ∧
    ¬ AppUnloaded failedLoadApp := by
  refine ⟨rfl, rfl, rfl, rfl, ?_, ?_⟩
  · intro hEq
    have h1 : (some "bad.wav" : Option String) = some "old.wav" :=
      congrArg AppState.audioFile hEq
    exact absurd h1 (by decide)
  · intro hU
    have h1 : (some "bad.wav" : Option String) = none := hU.1
    exact Option.noConfusion h1

/-- C6 (amended): a failed load leaves the waveform timeline, media source,
controls enablement, playing state and results exactly as they were, but has
already overwritten `audio_file` with the failed path and enabled the
Transcribe button — the prior loaded state is partially overwritten, not left
entirely unchanged and not cleared to an unloaded state. -/
theorem load_failure_leaves_partial_update (a : AppState) (path e : String) :
    (DrumTranscriptionUI.load_audio_file a path
        (Except.error e)).waveform = a.waveform ∧
    (DrumTranscriptionUI.load_audio_file a path
        (Except.error e)).mediaSource = a.mediaSource ∧
    (DrumTranscriptionUI.load_audio_file a path
        (Except.error e)).controlsEnabled = a.controlsEnabled ∧
    (DrumTranscriptionUI.load_audio_file a path
        (Except.error e)).hasResult = a.hasResult ∧
    (DrumTranscriptionUI.load_audio_file a path
        (Except.error e)).playing = a.playing ∧
    (DrumTranscriptionUI.load_audio_file a path
        (Except.error e)).audioFile = some path ∧
    (DrumTranscriptionUI.load_audio_file a path
        (Except.error e)).transcribeEnabled = true :=
  ⟨rfl, rfl, rfl, rfl, rfl, rfl, rfl⟩
